import Mathlib

/-!
Verification of the DeepTrace cold-case investigation tool.

This file shallowly embeds the parts of the DeepTrace source that the
specification's claims are about:

* the ACH score upsert (`dashboard/routes/ach.py`, `create`);
* the Admiralty reliability model (`dashboard/routes/sources.py`);
* the attachment upload / verify pipeline (`dashboard/routes/files.py`)
  together with a full executable SHA-256;
* the staged-extraction accept / reject / batch logic
  (`dashboard/routes/source_ai.py`);
* the transaction combinator (`db.py`, `CaseDatabase.transaction`);
* the case-creation and case-opening paths (`state.py`,
  `dashboard/routes/case_selector.py`) over an explicit filesystem model.

SQL tables are embedded as Lean lists of row structures, SQLite
AUTOINCREMENT ids as explicit counters, exceptions as `Except` /
explicit error results, and the sqlite3 connection's commit / rollback
behaviour as a committed / pending pair of states.
-/

set_option maxRecDepth 10000

namespace DeepTrace

/-! ## ACH scoring matrix (db.py `hypothesis_evidence_scores`, ach.py `create`) -/

/-- A row of `hypothesis_evidence_scores` (db.py, SCHEMA_SQL). -/
structure ScoreRow where
  hypothesis_id : Nat
  evidence_id : Nat
  consistency : String
  diagnostic_weight : String
deriving DecidableEq, Repr

/-- CHECK(consistency IN ('C', 'I', 'N')) from SCHEMA_SQL. -/
def consistencyOk (c : String) : Bool := ["C", "I", "N"].contains c

/-- CHECK(diagnostic_weight IN ('H', 'M', 'L')) from SCHEMA_SQL. -/
def weightOk (w : String) : Bool := ["H", "M", "L"].contains w

/-- The rows of the score table that belong to the pair `(h, e)`. -/
def rowsFor (t : List ScoreRow) (h e : Nat) : List ScoreRow :=
  t.filter (fun r => r.hypothesis_id == h && r.evidence_id == e)

/-- The ACH case state the `create` route touches: hypothesis ids,
evidence ids (both needed for the foreign-key checks) and the score
table. -/
structure AchState where
  hypothesisIds : List Nat
  evidenceIds : List Nat
  scores : List ScoreRow
deriving DecidableEq, Repr

/-- ach.py `create` (POST): inside one transaction, DELETE every
`hypothesis_evidence_scores` row of the pair, then INSERT the new row.
The INSERT is subject to the foreign-key constraints on
`hypothesis_id` / `evidence_id` and the CHECK constraints on
`consistency` / `diagnostic_weight`; a constraint violation aborts the
transaction, which is then rolled back (db.py `transaction`), leaving
the table unchanged. -/
def set_score (s : AchState) (h e : Nat) (c w : String) : AchState :=
  if s.hypothesisIds.contains h && s.evidenceIds.contains e
      && consistencyOk c && weightOk w then
    { s with scores :=
        (s.scores.filter
          (fun r => !(r.hypothesis_id == h && r.evidence_id == e)))
        ++ [⟨h, e, c, w⟩] }
  else
    s

/-- A sequence of POSTs to the ACH create route against the fixed pair
`(h, e)`, applied in order. -/
def set_score_seq (s : AchState) (h e : Nat)
    (calls : List (String × String)) : AchState :=
  calls.foldl (fun acc cw => set_score acc h e cw.1 cw.2) s

lemma set_score_hypothesisIds (s : AchState) (h e : Nat) (c w : String) :
    (set_score s h e c w).hypothesisIds = s.hypothesisIds := by
  unfold set_score
  split <;> rfl

lemma set_score_evidenceIds (s : AchState) (h e : Nat) (c w : String) :
    (set_score s h e c w).evidenceIds = s.evidenceIds := by
  unfold set_score
  split <;> rfl

lemma set_score_seq_hypothesisIds (s : AchState) (h e : Nat)
    (calls : List (String × String)) :
    (set_score_seq s h e calls).hypothesisIds = s.hypothesisIds := by
  induction calls generalizing s with
  | nil => rfl
  | cons cw rest ih =>
      simp only [set_score_seq, List.foldl_cons] at *
      rw [ih, set_score_hypothesisIds]

lemma set_score_seq_evidenceIds (s : AchState) (h e : Nat)
    (calls : List (String × String)) :
    (set_score_seq s h e calls).evidenceIds = s.evidenceIds := by
  induction calls generalizing s with
  | nil => rfl
  | cons cw rest ih =>
      simp only [set_score_seq, List.foldl_cons] at *
      rw [ih, set_score_evidenceIds]

/-- A valid `set_score` call replaces whatever rows the pair had by the
single freshly inserted row. -/
lemma rowsFor_set_score (s : AchState) (h e : Nat) (c w : String)
    (hh : s.hypothesisIds.contains h = true)
    (he : s.evidenceIds.contains e = true)
    (hc : consistencyOk c = true) (hw : weightOk w = true) :
    rowsFor (set_score s h e c w).scores h e = [⟨h, e, c, w⟩] := by
  unfold set_score
  rw [if_pos (by rw [hh, he, hc, hw]; rfl)]
  unfold rowsFor
  rw [List.filter_append, List.filter_filter]
  have h1 : ∀ r : ScoreRow,
      ((r.hypothesis_id == h) && ((r.evidence_id == e) &&
        !((r.hypothesis_id == h) && (r.evidence_id == e)))) = false := by
    intro r
    by_cases h2 : (r.hypothesis_id == h) = true <;>
      by_cases h3 : (r.evidence_id == e) = true <;> simp [h2, h3]
  simp [h1]

/-- Claim C1: for any sequence of POSTs to the ACH create route against
a fixed `(hypothesis_id, evidence_id)` pair of existing rows, with
valid consistency / weight values, the score table afterwards holds at
most one row for that pair, and that row carries the consistency and
diagnostic weight of the most recent call: the delete-then-insert
upsert replaces the old row and never accumulates duplicates. -/
theorem c1_set_score_upsert_single_row (s : AchState) (h e : Nat)
    (calls : List (String × String)) (c w : String)
    (hh : s.hypothesisIds.contains h = true)
    (he : s.evidenceIds.contains e = true)
    (hc : consistencyOk c = true) (hw : weightOk w = true) :
    rowsFor (set_score_seq s h e (calls ++ [(c, w)])).scores h e
        = [⟨h, e, c, w⟩]
      ∧ (rowsFor (set_score_seq s h e (calls ++ [(c, w)])).scores h e).length
        ≤ 1 := by
  have hsplit : set_score_seq s h e (calls ++ [(c, w)])
      = set_score (set_score_seq s h e calls) h e c w := by
    unfold set_score_seq
    rw [List.foldl_append]
    rfl
  have hmain : rowsFor (set_score_seq s h e (calls ++ [(c, w)])).scores h e
      = [⟨h, e, c, w⟩] := by
    rw [hsplit]
    exact rowsFor_set_score _ h e c w
      (by rw [set_score_seq_hypothesisIds]; exact hh)
      (by rw [set_score_seq_evidenceIds]; exact he) hc hw
  exact ⟨hmain, by rw [hmain]; simp⟩

/-- Witness for C1: a fresh case with hypothesis 1 and evidence 1,
scored Inconsistent/High and then re-scored Consistent/High; the
matrix afterwards holds the single cell (1, 1, C, H). -/
theorem c1_witness :
    rowsFor (set_score_seq ⟨[1], [1], []⟩ 1 1
        [("I", "H"), ("C", "H")]).scores 1 1 = [⟨1, 1, "C", "H"⟩] :=
  (c1_set_score_upsert_single_row ⟨[1], [1], []⟩ 1 1 [("I", "H")] "C" "H"
    (by decide) (by decide) (by decide) (by decide)).1

/-! ## Source reliability model (sources.py) -/

/-- sources.py `_admiralty_to_numeric`: `rel_map` lookup with default
0.4 for an unknown letter.  Python floats are embedded as exact
rationals; every value in play is an exact multiple of 1/5. -/
def rel_map (r : String) : ℚ :=
  if r = "A" then 1 else if r = "B" then 4/5 else if r = "C" then 3/5
  else if r = "D" then 2/5 else if r = "E" then 1/5 else if r = "F" then 0
  else 2/5

/-- sources.py `_admiralty_to_numeric`: `acc_map` lookup with default
0.4 for an unknown digit. -/
def acc_map (a : String) : ℚ :=
  if a = "1" then 1 else if a = "2" then 4/5 else if a = "3" then 3/5
  else if a = "4" then 2/5 else if a = "5" then 1/5 else if a = "6" then 0
  else 2/5

/-- Python's `round(x, 2)` on the values reached here: all inputs are
exact multiples of 1/10, so `x * 100` is an integer and every rounding
convention (including Python's round-half-to-even) is the identity;
the floor form below agrees with `round` on all such inputs. -/
def round2 (q : ℚ) : ℚ := (Rat.floor (q * 100 + 1/2) : ℚ) / 100

/-- sources.py `_admiralty_to_numeric(reliability, accuracy)`:
`round((r + a) / 2, 2)`. -/
def admiralty_to_numeric (reliability accuracy : String) : ℚ :=
  round2 ((rel_map reliability + acc_map accuracy) / 2)

/-- The six Admiralty reliability letters. -/
def admiraltyLetters : List String := ["A", "B", "C", "D", "E", "F"]

/-- The six Admiralty accuracy digits. -/
def admiraltyDigits : List String := ["1", "2", "3", "4", "5", "6"]

/-- The form fields the sources create / update routes read
(sources.py `create` / `update`). `reliability_score = none` models an
absent form field, for which the route falls back to 0.5. -/
structure SourceForm where
  raw_text : String
  source_type : Option String
  url : Option String
  reliability_score : Option ℚ
  source_reliability : Option String
  information_accuracy : Option String
  notes : Option String
deriving DecidableEq, Repr

/-- A row of the `sources` table as written by the routes. -/
structure SourceRow where
  raw_text : String
  source_type : String
  url : Option String
  reliability_score : ℚ
  source_reliability : Option String
  information_accuracy : Option String
  notes : Option String
deriving DecidableEq, Repr

/-- sources.py `create` (POST /): the INSERT stores the form's
`reliability_score` float verbatim (default 0.5); nothing recomputes
it from the letter / digit pair.  `update` (PUT) writes the same
fields the same way. -/
def sources_create (f : SourceForm) : SourceRow :=
  { raw_text := f.raw_text
    source_type := f.source_type.getD "manual"
    url := f.url
    reliability_score := f.reliability_score.getD (1/2)
    source_reliability := f.source_reliability
    information_accuracy := f.information_accuracy
    notes := f.notes }

/-- Rounding to two decimals is the identity on every rational whose hundredfold
is an integer — in particular on all Admiralty composites. -/
lemma round2_of_mul_100_eq_int (q : ℚ) (n : ℤ) (h : q * 100 = (n : ℚ)) :
    round2 q = q := by
  have hdef : round2 q = ((⌊q * 100 + 1/2⌋ : ℤ) : ℚ) / 100 := rfl
  have h2 : (⌊(n : ℚ) + 1/2⌋ : ℤ) = n := by
    rw [add_comm, Int.floor_add_int]
    norm_num
  rw [hdef, h, h2, ← h]
  ring

/-- Each valid reliability letter maps to a fifth of an integer. -/
lemma rel_map_cases : ∀ r ∈ admiraltyLetters,
    ∃ m : ℤ, rel_map r * 5 = (m : ℚ) := by
  intro r hr
  fin_cases hr
  · exact ⟨5, by rw [show rel_map "A" = 1 from rfl]; norm_num⟩
  · exact ⟨4, by rw [show rel_map "B" = 4/5 from rfl]; norm_num⟩
  · exact ⟨3, by rw [show rel_map "C" = 3/5 from rfl]; norm_num⟩
  · exact ⟨2, by rw [show rel_map "D" = 2/5 from rfl]; norm_num⟩
  · exact ⟨1, by rw [show rel_map "E" = 1/5 from rfl]; norm_num⟩
  · exact ⟨0, by rw [show rel_map "F" = 0 from rfl]; norm_num⟩

/-- Each valid accuracy digit maps to a fifth of an integer. -/
lemma acc_map_cases : ∀ a ∈ admiraltyDigits,
    ∃ m : ℤ, acc_map a * 5 = (m : ℚ) := by
  intro a ha
  fin_cases ha
  · exact ⟨5, by rw [show acc_map "1" = 1 from rfl]; norm_num⟩
  · exact ⟨4, by rw [show acc_map "2" = 4/5 from rfl]; norm_num⟩
  · exact ⟨3, by rw [show acc_map "3" = 3/5 from rfl]; norm_num⟩
  · exact ⟨2, by rw [show acc_map "4" = 2/5 from rfl]; norm_num⟩
  · exact ⟨1, by rw [show acc_map "5" = 1/5 from rfl]; norm_num⟩
  · exact ⟨0, by rw [show acc_map "6" = 0 from rfl]; norm_num⟩

/-- Counterexample to C2: a POST to the sources create route carrying
`source_reliability = "A"`, `information_accuracy = "1"` and
`reliability_score = 0.3` stores 0.3, not the composite 1.0 that
`round((rel+acc)/2, 2)` prescribes for A/1 — the route trusts the
caller-supplied float and never recomputes it from the ratings. -/
theorem c2_counterexample :
    (sources_create
        { raw_text := "Sheriff statement", source_type := some "official",
          url := none, reliability_score := some (3/10),
          source_reliability := some "A",
          information_accuracy := some "1",
          notes := none }).source_reliability = some "A"
    ∧ (sources_create
        { raw_text := "Sheriff statement", source_type := some "official",
          url := none, reliability_score := some (3/10),
          source_reliability := some "A",
          information_accuracy := some "1",
          notes := none }).information_accuracy = some "1"
    ∧ (sources_create
        { raw_text := "Sheriff statement", source_type := some "official",
          url := none, reliability_score := some (3/10),
          source_reliability := some "A",
          information_accuracy := some "1",
          notes := none }).reliability_score = 3/10
    ∧ admiralty_to_numeric "A" "1" = 1
    ∧ (3 : ℚ)/10 ≠ admiralty_to_numeric "A" "1" := by
  have h1 : admiralty_to_numeric "A" "1" = 1 := by
    rw [show admiralty_to_numeric "A" "1"
          = round2 ((rel_map "A" + acc_map "1") / 2) from rfl,
        show rel_map "A" = 1 from rfl, show acc_map "1" = 1 from rfl,
        show ((1 : ℚ) + 1) / 2 = 1 by norm_num]
    exact round2_of_mul_100_eq_int 1 100 (by norm_num)
  refine ⟨rfl, rfl, rfl, h1, ?_⟩
  rw [h1]
  norm_num

/-- Claim C2 (amended): the suggestion computed by
`_admiralty_to_numeric` equals `round((rel+acc)/2, 2)` under the
mapping A=1.0 … F=0.0, 1=1.0 … 6=0.0 for every valid letter / digit
pair (and the rounding is exact there, so it equals the plain mean);
the sources CRUD routes, however, store the caller-supplied
`reliability_score` verbatim (0.5 when absent), so a stored source
satisfies the composite formula only when the caller supplies that
value. -/
theorem c2_admiralty_composite (f : SourceForm)
    (r a : String) (hr : r ∈ admiraltyLetters) (ha : a ∈ admiraltyDigits) :
    admiralty_to_numeric r a = round2 ((rel_map r + acc_map a) / 2)
    ∧ admiralty_to_numeric r a = (rel_map r + acc_map a) / 2
    ∧ (sources_create f).reliability_score = f.reliability_score.getD (1/2)
    ∧ ((sources_create f).reliability_score = admiralty_to_numeric r a
        ↔ f.reliability_score.getD (1/2) = admiralty_to_numeric r a) := by
  refine ⟨rfl, ?_, rfl, Iff.rfl⟩
  obtain ⟨mr, hmr⟩ := rel_map_cases r hr
  obtain ⟨ma, hma⟩ := acc_map_cases a ha
  exact round2_of_mul_100_eq_int _ ((mr + ma) * 10)
    (by push_cast; linear_combination (10 : ℚ) * hmr + 10 * hma)

/-- Witness for C2's amended theorem: the B/3 pair on a form whose
caller supplied exactly that composite, 0.7. -/
theorem c2_witness :
    admiralty_to_numeric "B" "3" = (rel_map "B" + acc_map "3") / 2
    ∧ (sources_create
        { raw_text := "x", source_type := none, url := none,
          reliability_score := some (7/10), source_reliability := some "B",
          information_accuracy := some "3", notes := none }).reliability_score
      = (7 : ℚ)/10 := by
  have h := c2_admiralty_composite
    { raw_text := "x", source_type := none, url := none,
      reliability_score := some (7/10), source_reliability := some "B",
      information_accuracy := some "3", notes := none }
    "B" "3" (by decide) (by decide)
  exact ⟨h.2.1, h.2.2.1⟩

/-! ## SHA-256 (hashlib.sha256(...).hexdigest(), used by files.py) -/

/-- Truncate to a 32-bit word. -/
def wmask (x : Nat) : Nat := x % 4294967296

/-- Rotate a 32-bit word right. -/
def rotr32 (x n : Nat) : Nat := wmask ((x >>> n) ||| (x <<< (32 - n)))

/-- The 64 SHA-256 round constants. -/
def shaK : List Nat :=
  [1116352408, 1899447441, 3049323471, 3921009573, 961987163,
   1508970993, 2453635748, 2870763221, 3624381080, 310598401,
   607225278, 1426881987, 1925078388, 2162078206, 2614888103,
   3248222580, 3835390401, 4022224774, 264347078, 604807628,
   770255983, 1249150122, 1555081692, 1996064986, 2554220882,
   2821834349, 2952996808, 3210313671, 3336571891, 3584528711,
   113926993, 338241895, 666307205, 773529912, 1294757372,
   1396182291, 1695183700, 1986661051, 2177026350, 2456956037,
   2730485921, 2820302411, 3259730800, 3345764771, 3516065817,
   3600352804, 4094571909, 275423344, 430227734, 506948616,
   659060556, 883997877, 958139571, 1322822218, 1537002063,
   1747873779, 1955562222, 2024104815, 2227730452, 2361852424,
   2428436474, 2756734187, 3204031479, 3329325298]

/-- The SHA-256 initial hash state. -/
def shaH0 : List Nat :=
  [1779033703, 3144134277, 1013904242, 2773480762,
   1359893119, 2600822924, 528734635, 1541459225]

/-- Big-endian 4-byte groups to 32-bit words. -/
def toWords : List Nat → List Nat
  | a :: b :: c :: d :: rest =>
      (a * 16777216 + b * 65536 + c * 256 + d) :: toWords rest
  | _ => []

/-- SHA-256 small sigma 0. -/
def ssig0 (x : Nat) : Nat := (rotr32 x 7) ^^^ (rotr32 x 18) ^^^ (x >>> 3)

/-- SHA-256 small sigma 1. -/
def ssig1 (x : Nat) : Nat := (rotr32 x 17) ^^^ (rotr32 x 19) ^^^ (x >>> 10)

/-- Extend the message schedule by one word. -/
def scheduleStep (w : List Nat) : List Nat :=
  let n := w.length
  let wi := fun i => w.getD i 0
  w ++ [wmask (wi (n - 16) + ssig0 (wi (n - 15)) + wi (n - 7) + ssig1 (wi (n - 2)))]

/-- Extend 16 words to the 64-word schedule. -/
def schedule (w : List Nat) : List Nat :=
  (List.range 48).foldl (fun acc _ => scheduleStep acc) w

/-- One SHA-256 compression round over the eight working registers. -/
def compressStep (regs : List Nat) (kw : Nat × Nat) : List Nat :=
  match regs with
  | [a, b, c, d, e, f, g, h] =>
      let s1 := (rotr32 e 6) ^^^ (rotr32 e 11) ^^^ (rotr32 e 25)
      let ch := (e &&& f) ^^^ ((e ^^^ 4294967295) &&& g)
      let t1 := wmask (h + s1 + ch + kw.1 + kw.2)
      let s0 := (rotr32 a 2) ^^^ (rotr32 a 13) ^^^ (rotr32 a 22)
      let mj := (a &&& b) ^^^ (a &&& c) ^^^ (b &&& c)
      let t2 := wmask (s0 + mj)
      [wmask (t1 + t2), a, b, c, wmask (d + t1), e, f, g]
  | _ => regs

/-- Compress one 64-byte block into the hash state. -/
def compressBlock (hs : List Nat) (block : List Nat) : List Nat :=
  let w := schedule (toWords block)
  let regs := (shaK.zip w).foldl compressStep hs
  (hs.zip regs).map (fun p => wmask (p.1 + p.2))

/-- Split into 64-byte chunks (fuelled to keep the recursion
structural, so the kernel can evaluate it). -/
def chunksAux : Nat → List Nat → List (List Nat)
  | 0, _ => []
  | _, [] => []
  | fuel + 1, l => l.take 64 :: chunksAux fuel (l.drop 64)

/-- SHA-256 padding: `0x80`, zeros to 56 mod 64, 8-byte big-endian bit
length. -/
def padMessage (msg : List Nat) : List Nat :=
  let bitLen := msg.length * 8
  let padZeros := (55 + 64 - (msg.length % 64)) % 64
  msg ++ [0x80] ++ List.replicate padZeros 0
      ++ ([56, 48, 40, 32, 24, 16, 8, 0].map (fun s => (bitLen >>> s) % 256))

/-- The SHA-256 digest of a byte string, as 32 bytes. -/
def sha256bytes (msg : List Nat) : List Nat :=
  let blocks := chunksAux (msg.length + 72) (padMessage msg)
  let hs := blocks.foldl compressBlock shaH0
  hs.foldr (fun w acc =>
    [(w >>> 24) % 256, (w >>> 16) % 256, (w >>> 8) % 256, w % 256] ++ acc) []

/-- A lowercase hex digit. -/
def hexDigit (n : Nat) : Char :=
  if n < 10 then Char.ofNat (48 + n) else Char.ofNat (87 + n)

/-- Bytes to a lowercase hex string. -/
def toHex (bytes : List Nat) : String :=
  (bytes.foldr (fun b acc => hexDigit (b / 16) :: hexDigit (b % 16) :: acc)
    []).asString

/-- Python's `hashlib.sha256(msg).hexdigest()`. -/
def sha256hexdigest (msg : List Nat) : String := toHex (sha256bytes msg)

/-- The bytes of an ASCII string literal. -/
def strBytes (s : String) : List Nat := s.data.map Char.toNat

/-! ## Attachment upload against the shipped schema (C3) -/

/-- The columns of the `attachments` table that db.py's `SCHEMA_SQL`
(schema version 2, the schema a freshly created case database gets)
actually creates. -/
def attachmentsTableColumns : List String :=
  ["id", "filename", "mime_type", "file_size", "description", "data",
   "thumbnail", "ai_analysis", "ai_analyzed_at", "created_at"]

/-- The column list named by the INSERT in files.py `upload`. -/
def uploadInsertColumns : List String :=
  ["filename", "mime_type", "file_size", "file_path", "sha256",
   "description", "source_url"]

/-- files.py `MAX_FILE_SIZE = 50 * 1024 * 1024`. -/
def MAX_FILE_SIZE : Nat := 50 * 1024 * 1024

/-- The outcome of a POST to the files upload route. -/
inductive UploadResult where
  | emptyFile
  | tooLarge
  | sqlError (missingColumn : String)
  | stored (sha256 : String) (fileBytes : List Nat)
deriving DecidableEq, Repr

/-- files.py `upload` against a freshly created case database: read the
bytes, reject oversize (413) and empty (400) files, hash, then INSERT
into `attachments` naming `file_path`, `sha256` and `source_url` —
sqlite rejects the whole statement as soon as one named column is
absent from the table (`no such column`), which db.py's
`transaction` turns into a re-raised exception. -/
def upload (fileBytes : List Nat) : UploadResult :=
  if fileBytes.length > MAX_FILE_SIZE then .tooLarge
  else if fileBytes.length == 0 then .emptyFile
  else
    match uploadInsertColumns.find?
        (fun c => !(attachmentsTableColumns.contains c)) with
    | some c => .sqlError c
    | none => .stored (sha256hexdigest fileBytes) fileBytes

/-- Claim C3 (code bug): every non-empty upload within the size limit
into a freshly created case database fails with an SQL error — the
INSERT names the column `file_path`, which `SCHEMA_SQL`'s
`attachments` table (schema version 2, `data BLOB`) does not have —
so no upload ever succeeds, no download can round-trip it, and
verify() is unreachable.  (The repository's own tests,
tests/test_db.py `test_attachments_v4_columns` and tests/test_files.py,
assert the v4 columns exist after `initialize_schema`, so the stale
schema in db.py is the bug, not the routes.) -/
theorem c3_upload_fails_on_fresh_schema (fileBytes : List Nat)
    (hpos : 0 < fileBytes.length) (hmax : fileBytes.length ≤ MAX_FILE_SIZE) :
    upload fileBytes = .sqlError "file_path"
      ∧ ∀ sha bytes, upload fileBytes ≠ .stored sha bytes := by
  have hgt : (fileBytes.length > MAX_FILE_SIZE) = False := by
    simp only [eq_iff_iff, iff_false, not_lt]
    exact hmax
  have hne : (fileBytes.length == 0) = false := by
    simp only [beq_eq_false_iff_ne, ne_eq]
    omega
  have hres : upload fileBytes = .sqlError "file_path" := by
    unfold upload
    rw [if_neg (by omega), if_neg (by simp [hne])]
    rfl
  exact ⟨hres, fun sha bytes => by rw [hres]; intro hcontra; cases hcontra⟩

/-- Witness for C3: the 11-byte upload `b"hello world"` from the spec's
round-trip scenario hits the missing `file_path` column. -/
theorem c3_witness :
    upload (strBytes "hello world") = .sqlError "file_path" :=
  (c3_upload_fails_on_fresh_schema (strBytes "hello world")
    (by decide) (by decide)).1

/-! ## Attachment integrity verification (files.py `verify`, C4) -/

/-- Modelled from the spec: the v4 `attachments` row shape (filename,
disk-relative `file_path`, stored SHA-256) that files.py `verify`
reads.  The v4 schema itself is referenced by the routes and asserted
by tests/test_db.py but its DDL is missing from src's db.py
(`SCHEMA_SQL` still carries the v3-style `data BLOB` table), so the
row shape is taken from spec §3 "Attachment" and the columns the
route selects. -/
structure AttachmentRow where
  filename : String
  file_path : String
  sha256 : String
deriving DecidableEq, Repr

/-- The three outcomes of files.py `verify`. -/
inductive VerifyResult where
  | missing
  | tampered (expected actual : String)
  | verified (hash : String)
deriving DecidableEq, Repr

/-- files.py `verify` (POST /files/id/verify): if the file at the
row's `file_path` is absent report `missing`; otherwise recompute
SHA-256 over the on-disk bytes and report `verified` when it equals
the stored hash and `tampered` (carrying the stored hash as Expected
and the recomputed one as Got) when it differs.  The route runs no
UPDATE, so the attachment row is returned unchanged. -/
def verify (row : AttachmentRow) (diskBytes : Option (List Nat)) :
    VerifyResult × AttachmentRow :=
  match diskBytes with
  | none => (.missing, row)
  | some b =>
      let currentHash := sha256hexdigest b
      if currentHash = row.sha256 then (.verified currentHash, row)
      else (.tampered row.sha256 currentHash, row)

/-- Claim C4: verify reports exactly `missing` when the file is absent
from disk, `tampered` with the stored hash as expected and the
recomputed hash as actual when the on-disk bytes hash differently
(so any truncation or overwrite whose bytes hash differently is
reported tampered, never verified), `verified` when the recomputed
hash equals the stored one — and in every case the stored row (in
particular its sha256) is unchanged. -/
theorem c4_verify_trichotomy (row : AttachmentRow)
    (diskBytes : Option (List Nat)) :
    (diskBytes = none → verify row diskBytes = (.missing, row))
    ∧ (∀ b, diskBytes = some b → sha256hexdigest b ≠ row.sha256 →
        verify row diskBytes = (.tampered row.sha256 (sha256hexdigest b), row))
    ∧ (∀ b, diskBytes = some b → sha256hexdigest b = row.sha256 →
        verify row diskBytes = (.verified (sha256hexdigest b), row))
    ∧ (verify row diskBytes).2 = row
    ∧ (verify row diskBytes).2.sha256 = row.sha256 := by
  refine ⟨?_, ?_, ?_, ?_, ?_⟩
  · intro h
    rw [h]
    rfl
  · intro b hb hne
    rw [hb]
    unfold verify
    simp only [if_neg hne]
  · intro b hb heq
    rw [hb]
    unfold verify
    simp only [if_pos heq]
  · cases diskBytes with
    | none => rfl
    | some b =>
        unfold verify
        by_cases h : sha256hexdigest b = row.sha256 <;> simp [h]
  · cases diskBytes with
    | none => rfl
    | some b =>
        unfold verify
        by_cases h : sha256hexdigest b = row.sha256 <;> simp [h]

/-- Witness for C4: the spec's tampering scenario — an 11-byte upload
`b"hello world"`, truncated on disk to the 5 bytes `b"hello"` —
is reported tampered with both hashes shown, using the real SHA-256
digests of both byte strings. -/
theorem c4_witness :
    verify
        { filename := "scene.jpg", file_path := "attachments/1_scene.jpg",
          sha256 := sha256hexdigest (strBytes "hello world") }
        (some (strBytes "hello"))
      = (.tampered (sha256hexdigest (strBytes "hello world"))
          (sha256hexdigest (strBytes "hello")),
         { filename := "scene.jpg", file_path := "attachments/1_scene.jpg",
           sha256 := sha256hexdigest (strBytes "hello world") }) :=
  ((c4_verify_trichotomy
      { filename := "scene.jpg", file_path := "attachments/1_scene.jpg",
        sha256 := sha256hexdigest (strBytes "hello world") }
      (some (strBytes "hello"))).2.1 (strBytes "hello") rfl (by decide))

/-! ## Staged-extraction reconciliation (source_ai.py, C5–C7)

The staged rows live in the `ai_staged_items` table (columns
`analysis_id`, `source_id`, `item_type`, `item_data`, `status`, as
used by every statement in source_ai.py; its DDL is absent from src's
`SCHEMA_SQL` — spec §3 "Staged item" describes the same shape).  A
row's JSON `item_data` payload is embedded as a flat string-to-string
map; `jget` is `data.get(k)` / `data[k]` and a missing required key is
Python's `KeyError`. -/

/-- A row of `entities`. -/
structure Entity where
  id : Nat
  name : String
  entity_type : String
  description : Option String
  source_id : Option Nat
deriving DecidableEq, Repr

/-- A row of `evidence_items` as inserted by the accept paths. -/
structure EvidenceRow where
  id : Nat
  name : String
  evidence_type : String
  description : Option String
  status : String
  source_id : Option Nat
deriving DecidableEq, Repr

/-- A row of `events` as inserted by the accept paths. -/
structure EventRow where
  id : Nat
  description : String
  timestamp_start : Option String
  timestamp_end : Option String
  confidence : String
  source_id : Option Nat
deriving DecidableEq, Repr

/-- A row of `relationships` as inserted by the accept paths. -/
structure RelationshipRow where
  id : Nat
  entity_a_id : Nat
  entity_b_id : Nat
  relationship_type : String
  description : Option String
  source_id : Option Nat
deriving DecidableEq, Repr

/-- A row of `ai_staged_items`. -/
structure StagedItem where
  id : Nat
  source_id : Option Nat
  item_type : String
  item_data : List (String × String)
  status : String
deriving DecidableEq, Repr

/-- JSON object lookup, `data.get(k)`. -/
def jget (d : List (String × String)) (k : String) : Option String :=
  (d.find? (fun p => p.1 == k)).map (fun p => p.2)

/-- JSON object lookup with a default, `data.get(k, default)`. -/
def jgetD (d : List (String × String)) (k dflt : String) : String :=
  (jget d k).getD dflt

/-- The case tables and AUTOINCREMENT counters the accept / reject
logic touches. -/
structure DBState where
  entities : List Entity
  evidence_items : List EvidenceRow
  events : List EventRow
  relationships : List RelationshipRow
  staged : List StagedItem
  nextEntityId : Nat
  nextEvidenceId : Nat
  nextEventId : Nat
  nextRelationshipId : Nat
deriving DecidableEq, Repr

/-- A freshly initialized, empty case state. -/
def emptyDB : DBState :=
  { entities := [], evidence_items := [], events := [], relationships := [],
    staged := [], nextEntityId := 1, nextEvidenceId := 1, nextEventId := 1,
    nextRelationshipId := 1 }

/-- The query `SELECT id FROM entities WHERE name = ?` — first row in rowid
order whose name is byte-equal (SQLite's default BINARY collation is
exact and case-sensitive). -/
def findEntityByName (es : List Entity) (n : String) : Option Entity :=
  es.find? (fun e => e.name == n)

/-- The statement `UPDATE ai_staged_items SET status = ? WHERE id = ?`. -/
def markStatus (staged : List StagedItem) (itemId : Nat) (st : String) :
    List StagedItem :=
  staged.map (fun r => if r.id == itemId then { r with status := st } else r)

/-- Errors raised by statements inside a transaction. -/
inductive SqlError where
  | keyError (key : String)
  | integrityError (constraint : String)
deriving DecidableEq, Repr

/-- The look-up-or-create step of source_ai.py `accept_item` for one
relationship endpoint: `SELECT id FROM entities WHERE name = ?`
(the uncommitted inserts of the same cursor are visible), else
`INSERT INTO entities (name, entity_type, source_id) VALUES
(?, 'other', ?)` and take `lastrowid`.  Returns the resolved id, the
entities table afterwards and the next AUTOINCREMENT id. -/
def resolveEntity (es : List Entity) (nextId : Nat) (nm : String)
    (srcId : Option Nat) : Nat × List Entity × Nat :=
  match findEntityByName es nm with
  | some e => (e.id, es, nextId)
  | none => (nextId, es ++ [⟨nextId, nm, "other", none, srcId⟩], nextId + 1)

/-- The body of source_ai.py `accept_item`'s `with db.transaction()`
block: the type-specific insert (entity / evidence / event, KeyError
when the payload lacks the required field; relationships resolve or
create both endpoint entities by exact name match first), followed by
marking the staged row accepted.  An unrecognized `item_type` matches
no branch and is just marked accepted. -/
def acceptBody (s : DBState) (itm : StagedItem) : Except SqlError DBState :=
  if itm.item_type = "entity" then
    match jget itm.item_data "name" with
    | none => .error (.keyError "name")
    | some nm =>
        .ok { s with
          entities := s.entities ++
            [⟨s.nextEntityId, nm, jgetD itm.item_data "entity_type" "other",
              jget itm.item_data "description", itm.source_id⟩],
          nextEntityId := s.nextEntityId + 1,
          staged := markStatus s.staged itm.id "accepted" }
  else if itm.item_type = "evidence" then
    match jget itm.item_data "name" with
    | none => .error (.keyError "name")
    | some nm =>
        .ok { s with
          evidence_items := s.evidence_items ++
            [⟨s.nextEvidenceId, nm,
              jgetD itm.item_data "evidence_type" "documentary",
              jget itm.item_data "description",
              jgetD itm.item_data "status" "known", itm.source_id⟩],
          nextEvidenceId := s.nextEvidenceId + 1,
          staged := markStatus s.staged itm.id "accepted" }
  else if itm.item_type = "event" then
    match jget itm.item_data "description" with
    | none => .error (.keyError "description")
    | some desc =>
        .ok { s with
          events := s.events ++
            [⟨s.nextEventId, desc, jget itm.item_data "timestamp_start",
              jget itm.item_data "timestamp_end",
              jgetD itm.item_data "confidence" "medium", itm.source_id⟩],
          nextEventId := s.nextEventId + 1,
          staged := markStatus s.staged itm.id "accepted" }
  else if itm.item_type = "relationship" then
    let aName := jgetD itm.item_data "entity_a" "Unknown"
    let bName := jgetD itm.item_data "entity_b" "Unknown"
    let resA := resolveEntity s.entities s.nextEntityId aName itm.source_id
    let resB := resolveEntity resA.2.1 resA.2.2 bName itm.source_id
    .ok { s with
      entities := resB.2.1,
      nextEntityId := resB.2.2,
      relationships := s.relationships ++
        [⟨s.nextRelationshipId, resA.1, resB.1,
          jgetD itm.item_data "relationship_type" "other",
          jget itm.item_data "description", itm.source_id⟩],
      nextRelationshipId := s.nextRelationshipId + 1,
      staged := markStatus s.staged itm.id "accepted" }
  else
    .ok { s with staged := markStatus s.staged itm.id "accepted" }

/-- The outcome of source_ai.py `accept_item`. -/
inductive AcceptResult where
  | notFound
  | committed (s : DBState)
  | rolledBack (e : SqlError) (s : DBState)
deriving DecidableEq, Repr

/-- source_ai.py `accept_item`: fetch the staged row by id (404 when
absent), then run the accept body inside `db.transaction()` — on
success the write is committed, on an exception `transaction` rolls
the connection back, so the observable state is exactly the one
before the call, and the exception is re-raised. -/
def acceptItem (s : DBState) (itemId : Nat) : AcceptResult :=
  match s.staged.find? (fun r => r.id == itemId) with
  | none => .notFound
  | some itm =>
      match acceptBody s itm with
      | .ok s1 => .committed s1
      | .error e => .rolledBack e s

lemma resolveEntity_found (es : List Entity) (n : Nat) (nm : String)
    (srcId : Option Nat) (e : Entity) (h : findEntityByName es nm = some e) :
    resolveEntity es n nm srcId = (e.id, es, n) := by
  unfold resolveEntity
  rw [h]

lemma resolveEntity_new (es : List Entity) (n : Nat) (nm : String)
    (srcId : Option Nat) (h : findEntityByName es nm = none) :
    resolveEntity es n nm srcId
      = (n, es ++ [⟨n, nm, "other", none, srcId⟩], n + 1) := by
  unfold resolveEntity
  rw [h]

lemma findEntityByName_append (l1 l2 : List Entity) (nm : String) :
    findEntityByName (l1 ++ l2) nm
      = (findEntityByName l1 nm).or (findEntityByName l2 nm) :=
  List.find?_append

lemma findEntityByName_singleton (e : Entity) (nm : String) :
    findEntityByName [e] nm = if e.name == nm then some e else none := by
  unfold findEntityByName
  cases h : e.name == nm with
  | true => simp [List.find?, h]
  | false => simp [List.find?, h]

/-- The fixture for C5's counterexample: an empty case with one pending
staged relationship whose two endpoint names are both new — and equal. -/
def c5state : DBState :=
  { entities := [], evidence_items := [], events := [], relationships := [],
    staged := [⟨1, some 7, "relationship",
      [("entity_a", "John Doe"), ("entity_b", "John Doe"),
       ("relationship_type", "associate")], "pending"⟩],
    nextEntityId := 1, nextEvidenceId := 1, nextEventId := 1,
    nextRelationshipId := 1 }

/-- The state the code actually produces from `c5state`. -/
def c5after : DBState :=
  { entities := [⟨1, "John Doe", "other", none, some 7⟩],
    evidence_items := [], events := [],
    relationships := [⟨1, 1, 1, "associate", none, some 7⟩],
    staged := [⟨1, some 7, "relationship",
      [("entity_a", "John Doe"), ("entity_b", "John Doe"),
       ("relationship_type", "associate")], "accepted"⟩],
    nextEntityId := 2, nextEvidenceId := 1, nextEventId := 1,
    nextRelationshipId := 2 }

/-- Counterexample to C5: accepting a staged relationship whose two
endpoint names are both new but equal ("John Doe" twice) creates ONE
new entity, not two — the second look-up sees the entity the first
endpoint just inserted (the same cursor reads its own uncommitted
write) and reuses its id, so the claim's "exactly two new entities"
fails for equal names. -/
theorem c5_counterexample :
    acceptItem c5state 1 = .committed c5after
      ∧ c5after.entities.length = 1 ∧ c5after.entities.length ≠ 2 := by
  refine ⟨by decide, by decide, by decide⟩

/-- Claim C5 (amended): accepting a pending staged relationship
resolves each endpoint by exact, case-sensitive name match: an
existing name is reused (no duplicate entity), a new name creates a
new entity, and when the two names are both new *and distinct* the
accept creates exactly two new entities plus one relationship row
referencing them; in all cases the staged row is marked accepted. -/
theorem c5_accept_relationship (s : DBState) (itm : StagedItem)
    (a b : String)
    (hfind : s.staged.find? (fun r => r.id == itm.id) = some itm)
    (htype : itm.item_type = "relationship")
    (ha : jget itm.item_data "entity_a" = some a)
    (hb : jget itm.item_data "entity_b" = some b) :
    (∀ ea eb, findEntityByName s.entities a = some ea →
        findEntityByName s.entities b = some eb →
      acceptItem s itm.id = .committed { s with
        relationships := s.relationships ++
          [⟨s.nextRelationshipId, ea.id, eb.id,
            jgetD itm.item_data "relationship_type" "other",
            jget itm.item_data "description", itm.source_id⟩],
        nextRelationshipId := s.nextRelationshipId + 1,
        staged := markStatus s.staged itm.id "accepted" })
    ∧ (∀ eb, findEntityByName s.entities a = none →
        findEntityByName s.entities b = some eb →
      acceptItem s itm.id = .committed { s with
        entities := s.entities ++
          [⟨s.nextEntityId, a, "other", none, itm.source_id⟩],
        nextEntityId := s.nextEntityId + 1,
        relationships := s.relationships ++
          [⟨s.nextRelationshipId, s.nextEntityId, eb.id,
            jgetD itm.item_data "relationship_type" "other",
            jget itm.item_data "description", itm.source_id⟩],
        nextRelationshipId := s.nextRelationshipId + 1,
        staged := markStatus s.staged itm.id "accepted" })
    ∧ (findEntityByName s.entities a = none →
        findEntityByName s.entities b = none → a ≠ b →
      acceptItem s itm.id = .committed { s with
        entities := s.entities ++
          [⟨s.nextEntityId, a, "other", none, itm.source_id⟩,
           ⟨s.nextEntityId + 1, b, "other", none, itm.source_id⟩],
        nextEntityId := s.nextEntityId + 2,
        relationships := s.relationships ++
          [⟨s.nextRelationshipId, s.nextEntityId, s.nextEntityId + 1,
            jgetD itm.item_data "relationship_type" "other",
            jget itm.item_data "description", itm.source_id⟩],
        nextRelationshipId := s.nextRelationshipId + 1,
        staged := markStatus s.staged itm.id "accepted" }) := by
  have haD : jgetD itm.item_data "entity_a" "Unknown" = a := by
    unfold jgetD
    rw [ha]
    rfl
  have hbD : jgetD itm.item_data "entity_b" "Unknown" = b := by
    unfold jgetD
    rw [hb]
    rfl
  have hne1 : ¬ ("relationship" = "entity") := by decide
  have hne2 : ¬ ("relationship" = "evidence") := by decide
  have hne3 : ¬ ("relationship" = "event") := by decide
  refine ⟨?_, ?_, ?_⟩
  · intro ea eb hA hB
    simp only [acceptItem, hfind, acceptBody, htype, if_neg hne1,
      if_neg hne2, if_neg hne3, if_pos rfl, haD, hbD,
      resolveEntity_found s.entities s.nextEntityId a itm.source_id ea hA,
      resolveEntity_found s.entities s.nextEntityId b itm.source_id eb hB]
    rfl
  · intro eb hA hB
    have hB1 : findEntityByName
        (s.entities ++ [⟨s.nextEntityId, a, "other", none, itm.source_id⟩]) b
        = some eb := by
      rw [findEntityByName_append, hB]
      rfl
    simp only [acceptItem, hfind, acceptBody, htype, if_neg hne1,
      if_neg hne2, if_neg hne3, if_pos rfl, haD, hbD,
      resolveEntity_new s.entities s.nextEntityId a itm.source_id hA,
      resolveEntity_found _ (s.nextEntityId + 1) b itm.source_id eb hB1]
    rfl
  · intro hA hB hab
    have hB1 : findEntityByName
        (s.entities ++ [⟨s.nextEntityId, a, "other", none, itm.source_id⟩]) b
        = none := by
      rw [findEntityByName_append, hB, findEntityByName_singleton]
      simp only [Option.none_or]
      rw [if_neg]
      simp only [beq_iff_eq]
      exact hab
    simp only [acceptItem, hfind, acceptBody, htype, if_neg hne1,
      if_neg hne2, if_neg hne3, if_pos rfl, haD, hbD,
      resolveEntity_new s.entities s.nextEntityId a itm.source_id hA,
      resolveEntity_new _ (s.nextEntityId + 1) b itm.source_id hB1]
    rw [List.append_assoc]
    rfl

/-- The fixture for C5's witness: the spec's scenario — "Jane Roe"
already in the case, "John Doe" new, one pending staged relationship
between them. -/
def c5wstate : DBState :=
  { entities := [⟨1, "Jane Roe", "person", none, none⟩],
    evidence_items := [], events := [], relationships := [],
    staged := [⟨3, some 9, "relationship",
      [("entity_a", "John Doe"), ("entity_b", "Jane Roe"),
       ("relationship_type", "associate")], "pending"⟩],
    nextEntityId := 2, nextEvidenceId := 1, nextEventId := 1,
    nextRelationshipId := 1 }

/-- Witness for C5's amended theorem: accepting the `c5wstate` item
creates one new entity ("John Doe") and one relationship referencing
the existing "Jane Roe" id — no duplicate. -/
theorem c5_witness :
    acceptItem c5wstate 3 = .committed
      { entities := [⟨1, "Jane Roe", "person", none, none⟩,
                     ⟨2, "John Doe", "other", none, some 9⟩],
        evidence_items := [], events := [],
        relationships := [⟨1, 2, 1, "associate", none, some 9⟩],
        staged := [⟨3, some 9, "relationship",
          [("entity_a", "John Doe"), ("entity_b", "Jane Roe"),
           ("relationship_type", "associate")], "accepted"⟩],
        nextEntityId := 3, nextEvidenceId := 1, nextEventId := 1,
        nextRelationshipId := 2 } :=
  (c5_accept_relationship c5wstate
      ⟨3, some 9, "relationship",
        [("entity_a", "John Doe"), ("entity_b", "Jane Roe"),
         ("relationship_type", "associate")], "pending"⟩
      "John Doe" "Jane Roe" (by decide) rfl (by decide) (by decide)).2.1
    ⟨1, "Jane Roe", "person", none, none⟩ (by decide) (by decide)

/-! ## Transactions and rollback (db.py `transaction`, C6) -/

/-- A sqlite3 connection over a case state: the last committed state
and the pending (uncommitted) state the cursor statements mutate. -/
structure Conn (σ : Type) where
  committed : σ
  pending : σ
deriving DecidableEq, Repr

/-- Run statements sequentially on the pending state; the first
exception aborts the rest. -/
def execStmts {σ : Type} (p : σ) : List (σ → Except SqlError σ) →
    Except SqlError σ
  | [] => .ok p
  | op :: ops =>
      match op p with
      | .error e => .error e
      | .ok p1 => execStmts p1 ops

/-- db.py `CaseDatabase.transaction`: yield a cursor, run the block's
statements, `conn.commit()` on success; on any exception
`conn.rollback()` (discarding every uncommitted statement) and
re-raise.  Returns the connection afterwards and the re-raised
exception, if any. -/
def transactionRun {σ : Type} (c : Conn σ)
    (ops : List (σ → Except SqlError σ)) : Conn σ × Option SqlError :=
  match execStmts c.pending ops with
  | .ok p1 => (⟨p1, p1⟩, none)
  | .error e => (⟨c.committed, c.committed⟩, some e)

/-- Claim C6: (1) whenever any statement of a multi-statement write
inside `db.transaction()` raises, the whole write is rolled back: the
connection afterwards carries exactly the pre-transaction state, so no
partial state is observable; (2) in particular, accepting a staged
entity item whose JSON payload has no "name" key raises `KeyError`
inside the transaction and leaves the database state — including the
staged row's 'pending' status — exactly as it was, with no
primary-table row inserted. -/
theorem c6_transaction_rollback :
    (∀ (c : Conn DBState) (ops : List (DBState → Except SqlError DBState))
        (e : SqlError), c.pending = c.committed →
      (transactionRun c ops).2 = some e → (transactionRun c ops).1 = c)
    ∧ (∀ (s : DBState) (itm : StagedItem),
        s.staged.find? (fun r => r.id == itm.id) = some itm →
        itm.item_type = "entity" → jget itm.item_data "name" = none →
      acceptItem s itm.id = .rolledBack (.keyError "name") s) := by
  constructor
  · intro c ops e hpend hsome
    unfold transactionRun at *
    cases hexec : execStmts c.pending ops with
    | ok p1 =>
        rw [hexec] at hsome
        cases hsome
    | error e1 =>
        show (⟨c.committed, c.committed⟩ : Conn DBState) = c
        cases c with
        | mk comm pend =>
            simp only at hpend
            rw [hpend]
  · intro s itm hfind htype hname
    simp only [acceptItem, hfind, acceptBody, htype, if_pos rfl, hname]
    rfl

/-- Witness for C6: a failing one-statement write on a fresh
connection rolls back to the initial connection, and accepting the
concrete staged entity item `{"entity_type": "person"}` (no "name")
leaves the state untouched and still pending. -/
theorem c6_witness :
    (transactionRun (⟨emptyDB, emptyDB⟩ : Conn DBState)
        [fun _ => .error (.keyError "name")]).1
      = (⟨emptyDB, emptyDB⟩ : Conn DBState)
    ∧ acceptItem
        { entities := [], evidence_items := [], events := [],
          relationships := [],
          staged := [⟨4, some 2, "entity", [("entity_type", "person")],
            "pending"⟩],
          nextEntityId := 1, nextEvidenceId := 1, nextEventId := 1,
          nextRelationshipId := 1 } 4
      = .rolledBack (.keyError "name")
        { entities := [], evidence_items := [], events := [],
          relationships := [],
          staged := [⟨4, some 2, "entity", [("entity_type", "person")],
            "pending"⟩],
          nextEntityId := 1, nextEvidenceId := 1, nextEventId := 1,
          nextRelationshipId := 1 } :=
  ⟨c6_transaction_rollback.1 ⟨emptyDB, emptyDB⟩
      [fun _ => .error (.keyError "name")] (.keyError "name") rfl rfl,
   c6_transaction_rollback.2
      { entities := [], evidence_items := [], events := [],
        relationships := [],
        staged := [⟨4, some 2, "entity", [("entity_type", "person")],
          "pending"⟩],
        nextEntityId := 1, nextEvidenceId := 1, nextEventId := 1,
        nextRelationshipId := 1 }
      ⟨4, some 2, "entity", [("entity_type", "person")], "pending"⟩
      (by decide) rfl (by decide)⟩

/-! ## Batch accept / reject (source_ai.py `batch_action`, C7) -/

/-- The accept body used by source_ai.py `batch_action`: identical to
the single-item accept except that it has NO relationship branch — a
pending relationship (or unknown-typed) item matches no insert and is
simply marked accepted. -/
def acceptBatchBody (s : DBState) (itm : StagedItem) :
    Except SqlError DBState :=
  if itm.item_type = "entity" then
    match jget itm.item_data "name" with
    | none => .error (.keyError "name")
    | some nm =>
        .ok { s with
          entities := s.entities ++
            [⟨s.nextEntityId, nm, jgetD itm.item_data "entity_type" "other",
              jget itm.item_data "description", itm.source_id⟩],
          nextEntityId := s.nextEntityId + 1,
          staged := markStatus s.staged itm.id "accepted" }
  else if itm.item_type = "evidence" then
    match jget itm.item_data "name" with
    | none => .error (.keyError "name")
    | some nm =>
        .ok { s with
          evidence_items := s.evidence_items ++
            [⟨s.nextEvidenceId, nm,
              jgetD itm.item_data "evidence_type" "documentary",
              jget itm.item_data "description",
              jgetD itm.item_data "status" "known", itm.source_id⟩],
          nextEvidenceId := s.nextEvidenceId + 1,
          staged := markStatus s.staged itm.id "accepted" }
  else if itm.item_type = "event" then
    match jget itm.item_data "description" with
    | none => .error (.keyError "description")
    | some desc =>
        .ok { s with
          events := s.events ++
            [⟨s.nextEventId, desc, jget itm.item_data "timestamp_start",
              jget itm.item_data "timestamp_end",
              jgetD itm.item_data "confidence" "medium", itm.source_id⟩],
          nextEventId := s.nextEventId + 1,
          staged := markStatus s.staged itm.id "accepted" }
  else
    .ok { s with staged := markStatus s.staged itm.id "accepted" }

/-- One loop iteration of source_ai.py `batch_action`.  For "accept":
`SELECT * FROM ai_staged_items WHERE id = ? AND status = 'pending'`;
no row → the id is silently skipped (no write, and nothing appended to
`results`); a row → run the batch accept body in a transaction and
append `(id, accepted)`.  Any other action: unconditionally
`UPDATE ai_staged_items SET status = 'rejected' WHERE id = ?` —
regardless of the row's current status — and append `(id, rejected)`.
An exception escapes the loop with the earlier iterations already
committed. -/
def batchStep (action : String) (acc : DBState × List (Nat × String))
    (itemId : Nat) :
    Except (DBState × SqlError) (DBState × List (Nat × String)) :=
  if action = "accept" then
    match acc.1.staged.find?
        (fun r => r.id == itemId && r.status == "pending") with
    | none => .ok acc
    | some itm =>
        match acceptBatchBody acc.1 itm with
        | .ok s1 => .ok (s1, acc.2 ++ [(itemId, "accepted")])
        | .error e => .error (acc.1, e)
  else
    .ok ({ acc.1 with staged := markStatus acc.1.staged itemId "rejected" },
         acc.2 ++ [(itemId, "rejected")])

/-- source_ai.py `batch_action`: fold the per-id step over the id
list, starting from the current state and an empty results list. -/
def batchAction (s : DBState) (action : String) (ids : List Nat) :
    Except (DBState × SqlError) (DBState × List (Nat × String)) :=
  ids.foldlM (batchStep action) (s, [])

/-- The fixture for C7: a single staged row that is already accepted
(no longer pending). -/
def c7state : DBState :=
  { entities := [], evidence_items := [], events := [], relationships := [],
    staged := [⟨1, some 5, "entity", [("name", "X")], "accepted"⟩],
    nextEntityId := 1, nextEvidenceId := 1, nextEventId := 1,
    nextRelationshipId := 1 }

/-- The state `c7state` after the batch reject flips the accepted row. -/
def c7rejected : DBState :=
  { entities := [], evidence_items := [], events := [], relationships := [],
    staged := [⟨1, some 5, "entity", [("name", "X")], "rejected"⟩],
    nextEntityId := 1, nextEvidenceId := 1, nextEventId := 1,
    nextRelationshipId := 1 }

/-- Counterexample to C7: a batch reject of id 1, whose staged row is
already `accepted` (not pending), is NOT skipped — the route's reject
branch updates unconditionally, so the row's status changes from
"accepted" to "rejected", contradicting the claim that ids no longer
pending have their status left unchanged. -/
theorem c7_counterexample :
    batchAction c7state "reject" [1] = .ok (c7rejected, [(1, "rejected")])
      ∧ c7state.staged.map (fun r => r.status) = ["accepted"]
      ∧ c7rejected.staged.map (fun r => r.status) = ["rejected"] :=
  ⟨rfl, by decide, by decide⟩

/-- Batch accept over ids none of which has a pending row leaves the
state untouched and reports nothing at all — generalized over the
results accumulator. -/
lemma batch_accept_skip_aux (ids : List Nat) (s : DBState)
    (res : List (Nat × String))
    (hnone : ∀ i ∈ ids, s.staged.find?
      (fun r => r.id == i && r.status == "pending") = none) :
    ids.foldlM (batchStep "accept") (s, res) = .ok (s, res) := by
  induction ids with
  | nil => simp [List.foldlM, pure, Except.pure]
  | cons i rest ih =>
      have hstep : batchStep "accept" (s, res) i = .ok (s, res) := by
        unfold batchStep
        rw [if_pos rfl]
        rw [hnone i (List.mem_cons_self i rest)]
      simp only [List.foldlM_cons, hstep, bind, Except.bind]
      exact ih (fun j hj => hnone j (List.mem_cons_of_mem i hj))

/-- The reject loop, generalized over the accumulator: it rewrites the
status of every listed id and reports `(id, rejected)` for each. -/
lemma batch_reject_aux (ids : List Nat) (s : DBState)
    (res : List (Nat × String)) :
    ids.foldlM (batchStep "reject") (s, res)
      = .ok (ids.foldl (fun st i =>
            { st with staged := markStatus st.staged i "rejected" }) s,
          res ++ ids.map (fun i => (i, "rejected"))) := by
  induction ids generalizing s res with
  | nil => simp [List.foldlM, pure, Except.pure]
  | cons i rest ih =>
      have hstep : batchStep "reject" (s, res) i
          = .ok ({ s with staged := markStatus s.staged i "rejected" },
              res ++ [(i, "rejected")]) := by
        unfold batchStep
        rw [if_neg (by decide)]
      simp only [List.foldlM_cons, hstep, List.foldl_cons, List.map_cons,
        bind, Except.bind]
      rw [ih]
      simp [List.append_assoc]

/-- If every row with id `i` is already "rejected", further reject
updates keep it so. -/
lemma foldl_reject_preserves (rest : List Nat) (s : DBState) (i : Nat)
    (h : ∀ r ∈ s.staged, r.id = i → r.status = "rejected") :
    ∀ r ∈ (rest.foldl (fun st j =>
        { st with staged := markStatus st.staged j "rejected" }) s).staged,
      r.id = i → r.status = "rejected" := by
  induction rest generalizing s with
  | nil => exact h
  | cons j rest ih =>
      intro r hr hid
      refine ih _ ?_ r hr hid
      intro r0 hr0 hid0
      simp only [markStatus] at hr0
      obtain ⟨r1, hr1, hmap⟩ := List.mem_map.mp hr0
      by_cases hj : (r1.id == j) = true
      · rw [if_pos hj] at hmap
        rw [← hmap]
      · rw [Bool.not_eq_true] at hj
        rw [if_neg (by rw [hj]; exact Bool.false_ne_true)] at hmap
        rw [← hmap]
        exact h r1 hr1 (by rw [hmap]; exact hid0)

/-- Every row whose id was in a reject batch ends with status
"rejected". -/
lemma foldl_reject_status (ids : List Nat) (s : DBState) :
    ∀ r ∈ (ids.foldl (fun st j =>
        { st with staged := markStatus st.staged j "rejected" }) s).staged,
      r.id ∈ ids → r.status = "rejected" := by
  induction ids generalizing s with
  | nil =>
      intro r _ hid
      cases hid
  | cons i rest ih =>
      intro r hr hid
      rcases List.mem_cons.mp hid with hid1 | hid2
      · refine foldl_reject_preserves rest _ i ?_ r hr hid1
        intro r0 hr0 hid0
        simp only [markStatus] at hr0
        obtain ⟨r1, hr1, hmap⟩ := List.mem_map.mp hr0
        by_cases hj : (r1.id == i) = true
        · rw [if_pos hj] at hmap
          rw [← hmap]
        · rw [Bool.not_eq_true] at hj
          rw [if_neg (by rw [hj]; exact Bool.false_ne_true)] at hmap
          exfalso
          rw [← hmap] at hid0
          exact absurd (beq_iff_eq.mpr hid0) (by rw [hj]; exact Bool.false_ne_true)
      · exact ih _ r hr hid2

/-- Claim C7 (amended): in a batch accept, an id with no pending
staged row is skipped without failing and without any write — but no
per-id outcome is reported for it (the response only counts the
processed ids); in a batch reject, every listed id gets an outcome and
its staged row's status is set to "rejected" unconditionally, even
when the row was no longer pending. -/
theorem c7_batch_action (s : DBState) (ids : List Nat) :
    ((∀ i ∈ ids, s.staged.find?
        (fun r => r.id == i && r.status == "pending") = none) →
      batchAction s "accept" ids = .ok (s, []))
    ∧ batchAction s "reject" ids
        = .ok (ids.foldl (fun st i =>
              { st with staged := markStatus st.staged i "rejected" }) s,
            ids.map (fun i => (i, "rejected")))
    ∧ (∀ s1 res, batchAction s "reject" ids = .ok (s1, res) →
        ∀ r ∈ s1.staged, r.id ∈ ids → r.status = "rejected") := by
  refine ⟨?_, ?_, ?_⟩
  · intro hnone
    exact batch_accept_skip_aux ids s [] hnone
  · unfold batchAction
    rw [batch_reject_aux ids s []]
    simp
  · intro s1 res hok r hr hid
    have h := batch_reject_aux ids s []
    unfold batchAction at hok
    rw [h] at hok
    simp only [Except.ok.injEq, Prod.mk.injEq] at hok
    obtain ⟨hs1, _⟩ := hok
    rw [← hs1] at hr
    exact foldl_reject_status ids s r hr hid

/-- Witness for C7's amended theorem: batch-accepting the already
accepted row of `c7state` is skipped with no outcome, and
batch-rejecting it reports one outcome and leaves its status
"rejected". -/
theorem c7_witness :
    batchAction c7state "accept" [1] = .ok (c7state, [])
      ∧ batchAction c7state "reject" [1]
        = .ok ({ c7state with
            staged := markStatus c7state.staged 1 "rejected" },
          [(1, "rejected")]) :=
  ⟨(c7_batch_action c7state [1]).1 (by decide),
   (c7_batch_action c7state [1]).2.1⟩

/-! ## AI-call auditing (source_ai.py `_record_analysis`, C8) -/

/-- The constraint `CHECK(entity_type IN ('evidence', 'hypothesis', 'timeline'))` on
`ai_analyses` (db.py, SCHEMA_SQL). -/
def aiAnalysesEntityTypes : List String := ["evidence", "hypothesis", "timeline"]

/-- The constraint `CHECK(mode IN ('default', 'devils-advocate', 'red-hat',
'what-if', 'sensitivity'))` on `ai_analyses` (db.py, SCHEMA_SQL). -/
def aiAnalysesModes : List String :=
  ["default", "devils-advocate", "red-hat", "what-if", "sensitivity"]

/-- The `CARL_DEFAULT_MODEL` fallback in source_ai.py. -/
def CARL_DEFAULT_MODEL : String := "qwen2.5:3b-instruct"

/-- A row inserted into `ai_analyses`. -/
structure AiAnalysisRow where
  entity_type : String
  entity_id : Nat
  mode : String
  prompt : String
  response : String
  model : String
  success : Nat
  error : Option String
deriving DecidableEq, Repr

/-- source_ai.py `_record_analysis`: the row its INSERT builds —
`entity_type` is the literal `'source'`, `mode` is the caller's mode,
prompt truncated to 2000 and response to 50000 characters, success as
1/0. -/
def recordAnalysisRow (source_id : Nat) (mode prompt response : String)
    (success : Bool) (err : Option String) : AiAnalysisRow :=
  { entity_type := "source", entity_id := source_id, mode := mode,
    prompt := prompt.take 2000, response := response.take 50000,
    model := CARL_DEFAULT_MODEL, success := if success then 1 else 0,
    error := err }

/-- The conjunction of the two CHECK constraints sqlite evaluates on an
`ai_analyses` INSERT. -/
def aiAnalysesChecksOk (r : AiAnalysisRow) : Bool :=
  aiAnalysesEntityTypes.contains r.entity_type
    && aiAnalysesModes.contains r.mode

/-- The INSERT into `ai_analyses`: rejected with an IntegrityError when
either CHECK constraint fails. -/
def insertAiAnalysis (tbl : List AiAnalysisRow) (r : AiAnalysisRow) :
    Except SqlError (List AiAnalysisRow) :=
  if aiAnalysesChecksOk r then .ok (tbl ++ [r])
  else .error (.integrityError "ai_analyses CHECK")

/-- Claim C8 (code bug): the audit insert performed by
`_record_analysis` — `entity_type = 'source'`, mode one of
'classify' / 'extract' / 'cross-reference' — violates BOTH CHECK
constraints of the `ai_analyses` table that `SCHEMA_SQL` creates
('source' is not among the allowed entity types and none of the three
modes is among the allowed modes), so the insert raises an
IntegrityError instead of recording the call: against the shipped
schema no audit record can be written by the source-analysis
operations. -/
theorem c8_record_analysis_violates_check (tbl : List AiAnalysisRow)
    (source_id : Nat) (mode prompt response : String) (success : Bool)
    (err : Option String)
    (hmode : mode = "classify" ∨ mode = "extract" ∨ mode = "cross-reference") :
    aiAnalysesChecksOk
        (recordAnalysisRow source_id mode prompt response success err) = false
    ∧ insertAiAnalysis tbl
        (recordAnalysisRow source_id mode prompt response success err)
      = .error (.integrityError "ai_analyses CHECK")
    ∧ aiAnalysesEntityTypes.contains "source" = false
    ∧ aiAnalysesModes.contains mode = false := by
  have het : aiAnalysesEntityTypes.contains "source" = false := by decide
  have hchk : aiAnalysesChecksOk
      (recordAnalysisRow source_id mode prompt response success err)
      = false := by
    unfold aiAnalysesChecksOk recordAnalysisRow
    simp only []
    rw [het]
    rfl
  refine ⟨hchk, ?_, het, ?_⟩
  · unfold insertAiAnalysis
    rw [hchk]
    rfl
  · rcases hmode with h | h | h <;> rw [h] <;> decide

/-- Witness for C8: the concrete classify call — source 1, mode
"classify" — is rejected by the CHECK constraints on an empty
`ai_analyses` table. -/
theorem c8_witness :
    insertAiAnalysis []
        (recordAnalysisRow 1 "classify" "Analyze this source" "resp" true none)
      = .error (.integrityError "ai_analyses CHECK")
    ∧ aiAnalysesEntityTypes.contains "source" = false :=
  ⟨(c8_record_analysis_violates_check [] 1 "classify" "Analyze this source"
      "resp" true none (Or.inl rfl)).2.1,
   (c8_record_analysis_violates_check [] 1 "classify" "Analyze this source"
      "resp" true none (Or.inl rfl)).2.2.1⟩

/-! ## Case creation and opening (state.py, case_selector.py, C9–C10) -/

/-- The methods the `CaseDatabase` class in db.py defines. -/
def caseDatabaseMethods : List String :=
  ["__init__", "open", "close", "__enter__", "__exit__",
   "initialize_schema", "transaction", "execute", "fetchone", "fetchall"]

/-- Python attribute dispatch on a `CaseDatabase` instance: calling an
undefined method raises `AttributeError`. -/
def callMethod (name : String) : Except String Unit :=
  if caseDatabaseMethods.contains name then .ok ()
  else .error "AttributeError"

/-- The cases directory: the set of case directories on disk. -/
structure CasesFS where
  dirs : List String
deriving DecidableEq, Repr

/-- The outcome of a case-creation attempt, carrying the filesystem
afterwards where a directory may have been created. -/
inductive CreateCaseResult where
  | invalidName
  | conflict
  | failedLeaving (fs : CasesFS) (err : String)
  | created (fs : CasesFS) (slug : String)
deriving DecidableEq, Repr

/-- state.py `AppState.create_case`: FileExistsError if the directory
exists, else `mkdir`, open the database and initialize the schema.
`initFails` models `initialize_schema` (or `db.open`) raising
mid-initialization; there is no try / except or cleanup around the
body, so the exception propagates with the directory still on disk. -/
def appStateCreateCase (fs : CasesFS) (slug : String) (initFails : Bool) :
    CreateCaseResult :=
  if fs.dirs.contains slug then .conflict
  else
    let fs1 : CasesFS := ⟨fs.dirs ++ [slug]⟩
    if initFails then .failedLeaving fs1 "schema initialization failed"
    else .created fs1 slug

/-- case_selector.py's name rule `^[a-z0-9-]+$`. -/
def validCaseName (s : String) : Bool :=
  s.length > 0 && s.data.all (fun c => c.isLower || c.isDigit || c == '-')

/-- case_selector.py `create_case` (POST /case/create): validate the
name, 400 on an existing directory, `mkdir`, `db.open()`, then call
`db.init_schema()` — a method `CaseDatabase` does not define, so
Python raises AttributeError after the directory was created; there is
no cleanup handler, so the partial case directory is left behind on
every invocation. -/
def webCreateCase (fs : CasesFS) (name : String) : CreateCaseResult :=
  if !(validCaseName name) then .invalidName
  else if fs.dirs.contains name then .conflict
  else
    let fs1 : CasesFS := ⟨fs.dirs ++ [name]⟩
    match callMethod "init_schema" with
    | .error e => .failedLeaving fs1 e
    | .ok _ => .created fs1 name

/-- Claim C9 (code bug): neither case-creation path cleans up on a
mid-initialization failure.  `AppState.create_case` leaves the freshly
made directory behind when schema initialization raises, and the web
`create_case` route ALWAYS fails after `mkdir` — it calls
`db.init_schema()`, which `CaseDatabase` does not define — leaving a
partial case directory on every invocation; in both outcomes the slug
is still among the on-disk case directories, contradicting the
required clean-up-on-failure. -/
theorem c9_failed_creation_leaves_directory (fs : CasesFS)
    (slug name : String)
    (hslug : fs.dirs.contains slug = false)
    (hname : validCaseName name = true)
    (hnew : fs.dirs.contains name = false) :
    appStateCreateCase fs slug true
        = .failedLeaving ⟨fs.dirs ++ [slug]⟩ "schema initialization failed"
    ∧ slug ∈ fs.dirs ++ [slug]
    ∧ webCreateCase fs name
        = .failedLeaving ⟨fs.dirs ++ [name]⟩ "AttributeError"
    ∧ caseDatabaseMethods.contains "init_schema" = false
    ∧ name ∈ fs.dirs ++ [name] := by
  refine ⟨?_, ?_, ?_, by decide, ?_⟩
  · unfold appStateCreateCase
    rw [if_neg (by rw [hslug]; exact Bool.false_ne_true), if_pos rfl]
  · exact List.mem_append_right _ (List.mem_singleton.mpr rfl)
  · unfold webCreateCase
    rw [if_neg (by rw [hname]; exact fun h => nomatch h),
        if_neg (by rw [hnew]; exact Bool.false_ne_true)]
    rfl
  · exact List.mem_append_right _ (List.mem_singleton.mpr rfl)

/-- Witness for C9: creating "test-case" in an empty cases directory —
the AppState path with a failing schema initialization, and the web
path (which always fails) — both leave the `test-case` directory on
disk. -/
theorem c9_witness :
    appStateCreateCase ⟨[]⟩ "test-case" true
        = .failedLeaving ⟨["test-case"]⟩ "schema initialization failed"
    ∧ webCreateCase ⟨[]⟩ "test-case"
        = .failedLeaving ⟨["test-case"]⟩ "AttributeError" :=
  ⟨(c9_failed_creation_leaves_directory ⟨[]⟩ "test-case" "test-case"
      rfl (by decide) rfl).1,
   (c9_failed_creation_leaves_directory ⟨[]⟩ "test-case" "test-case"
      rfl (by decide) rfl).2.2.1⟩

/-- The outcome of state.py `AppState.open_case`. -/
inductive OpenCaseResult where
  | caseNotFound
  | attributeError (missingMethod : String)
  | opened (slug : String)
deriving DecidableEq, Repr

/-- state.py `AppState.open_case`: FileNotFoundError when the case
directory does not exist; otherwise set the active slug, open the
database and call `self.db.maybe_migrate(case_dir)` — a method the
`CaseDatabase` class in db.py does not define. -/
def openCase (fs : CasesFS) (slug : String) : OpenCaseResult :=
  if !(fs.dirs.contains slug) then .caseNotFound
  else
    match callMethod "maybe_migrate" with
    | .error _ => .attributeError "maybe_migrate"
    | .ok _ => .opened slug

/-- Claim C10: for every existing case directory, `AppState.open_case`
raises before completing — it calls `maybe_migrate`, which
`CaseDatabase` does not define, so Python raises AttributeError — and
consequently no case can ever be opened successfully through the
AppState interface. -/
theorem c10_open_case_always_raises (fs : CasesFS) (slug : String)
    (h : fs.dirs.contains slug = true) :
    openCase fs slug = .attributeError "maybe_migrate"
    ∧ caseDatabaseMethods.contains "maybe_migrate" = false
    ∧ ∀ s, openCase fs slug ≠ .opened s := by
  have hres : openCase fs slug = .attributeError "maybe_migrate" := by
    unfold openCase
    rw [if_neg (by rw [h]; exact fun hc => nomatch hc)]
    rfl
  refine ⟨hres, by decide, ?_⟩
  intro s hcontra
  rw [hres] at hcontra
  cases hcontra

/-- Witness for C10: the existing case "smith-disappearance" cannot be
opened — `open_case` hits the missing `maybe_migrate`. -/
theorem c10_witness :
    openCase ⟨["smith-disappearance"]⟩ "smith-disappearance"
      = .attributeError "maybe_migrate" :=
  (c10_open_case_always_raises ⟨["smith-disappearance"]⟩
    "smith-disappearance" (by decide)).1

end DeepTrace
